import Mathlib

/-!
Shallow embedding of the GitHub-App authentication and API-helper component
of `src/app/app.py` (DevSecOps Portfolio Dashboard).

Modelling conventions:
  - Timestamps (`time.time()`, `datetime.timestamp()`) are integers (seconds).
  - Python string truthiness (`if s:` / `all([...])`) is `pyTruthy`:
    `None` and the empty string are falsy.
  - Python string slicing `s[:n]` is `pySlice s n` (first `n` characters).
  - Network effects are passed in as explicit outcome values (`VaultResult`,
    `ExchangeResult`, `HttpResult`); exceptions raised inside a `try` block
    are constructors of those outcome types, uncaught exceptions in the
    JSON-projection helpers are `Except.error`.
  - `datetime.fromisoformat` is an abstract parameter
    `parseIso : String → Option Int` (`none` models a raised `ValueError`).
-/

/-- Python string truthiness for an optional string: `None` and `""` are falsy. -/
def pyTruthy : Option String → Bool
  | none => false
  | some s => decide (s ≠ "")

/-- Python `str()` applied to an optional string (`str(None) = "None"`). -/
def pyStr : Option String → String
  | none => "None"
  | some s => s

/-- Python slice `s[:n]`: the first `n` characters of `s`. -/
def pySlice (s : String) (n : Nat) : String := ⟨s.data.take n⟩

/-- Python `s.split("\n")[0]`: the prefix of `s` up to the first newline
(the whole string when it has none). -/
def pyFirstLine (s : String) : String := ⟨s.data.takeWhile (fun ch => ch ≠ '\n')⟩

theorem pySlice_length_le (s : String) (n : Nat) : (pySlice s n).length ≤ n := by
  have h : (pySlice s n).length = (s.data.take n).length := rfl
  rw [h, List.length_take]
  exact min_le_left _ _

/-- The mutable fields of the `GitHubAppAuth` singleton, with the initial
values assigned by `__init__` as defaults. -/
structure AuthState where
  app_id : Option String := none
  private_key : Option String := none
  installation_id : Option String := none
  token : Option String := none
  token_expires_at : Int := 0
  vault_error : Option String := none
  github_error : Option String := none
  initialized : Bool := false
deriving Repr, DecidableEq

/-- The three optional fields `data.get(...)` extracts from the Vault
secret payload. -/
structure SecretData where
  app_id : Option String
  private_key : Option String
  installation_id : Option String
deriving Repr, DecidableEq

/-- Outcome of the Vault interaction inside `_load_from_vault`: the guard
branches (`hvac is None`, empty `VAULT_TOKEN`, failed authentication), a
successfully fetched secret payload, or one of the two caught exception
classes. -/
inductive VaultResult where
  | hvacMissing
  | tokenUnset
  | authFailed
  | secretRead (data : SecretData)
  | vaultErr (msg : String)
  | otherErr (msg : String)
deriving Repr, DecidableEq

/-- `GitHubAppAuth._load_from_vault`: stores the payload fields, then
validates `all([app_id, private_key, installation_id])`. Returns the updated
state and the Python return value. -/
def loadFromVault (s : AuthState) (v : VaultResult) : AuthState × Bool :=
  match v with
  | .hvacMissing => ({ s with vault_error := some "hvac library not installed" }, false)
  | .tokenUnset => ({ s with vault_error := some "VAULT_TOKEN not set" }, false)
  | .authFailed => ({ s with vault_error := some "Vault authentication failed" }, false)
  | .secretRead data =>
      let s := { s with
        app_id := data.app_id,
        private_key := data.private_key,
        installation_id := data.installation_id }
      if pyTruthy s.app_id && pyTruthy s.private_key && pyTruthy s.installation_id then
        (s, true)
      else
        ({ s with vault_error := some "Missing fields in Vault secret (need app_id, private_key, installation_id)" },
         false)
  | .vaultErr msg => ({ s with vault_error := some ("Vault error: " ++ msg) }, false)
  | .otherErr msg => ({ s with vault_error := some ("Unexpected error reading Vault: " ++ msg) }, false)

/-- The signed assertion built by `_generate_jwt`: the JWT claim set together
with the signing key and algorithm handed to `jwt.encode`. -/
structure JwtAssertion where
  iat : Int
  exp : Int
  iss : String
  key : Option String
  algorithm : String
deriving Repr, DecidableEq

/-- `GitHubAppAuth._generate_jwt` evaluated at current time `now`. -/
def generateJwt (now : Int) (s : AuthState) : JwtAssertion :=
  { iat := now - 60,
    exp := now + 10 * 60,
    iss := pyStr s.app_id,
    key := s.private_key,
    algorithm := "RS256" }

/-- The JSON body of a successful token-exchange response:
`data["token"]` and the optional `data.get("expires_at", "")` field. -/
structure TokenBody where
  token : String
  expires_at : Option String
deriving Repr, DecidableEq

/-- Outcome of the token-exchange attempt inside `_get_installation_token`:
an exception raised before a response body was parsed (`isNetwork` selects
`requests.RequestException` versus the generic handler, covering
`jwt.encode` failures and JSON/`KeyError` failures), or an HTTP response
with its status, text, and parse result for `resp.json()["token"]` /
`data.get("expires_at")`. -/
inductive ExchangeResult where
  | raised (isNetwork : Bool) (msg : String)
  | httpResponse (status : Nat) (text : String) (jsonResult : Except String TokenBody)
deriving Repr

/-- `GitHubAppAuth._get_installation_token` evaluated at current time `now`
with ISO-8601 parsing modelled by `parseIso`. Returns the updated state and
the Python return value. -/
def getInstallationToken (parseIso : String → Option Int) (now : Int)
    (s : AuthState) (g : ExchangeResult) : AuthState × Bool :=
  match g with
  | .raised true msg =>
      ({ s with github_error := some ("GitHub API unreachable: " ++ msg) }, false)
  | .raised false msg =>
      ({ s with github_error := some ("Token exchange error: " ++ msg) }, false)
  | .httpResponse status text jsonResult =>
      if status ≠ 201 then
        ({ s with github_error := some ("GitHub token exchange failed: " ++ toString status ++ " " ++ pySlice text 200) },
         false)
      else
        match jsonResult with
        | .error msg =>
            ({ s with github_error := some ("Token exchange error: " ++ msg) }, false)
        | .ok body =>
            let s := { s with token := some body.token }
            let expiresStr := (body.expires_at).getD ""
            if expiresStr = "" then
              ({ s with token_expires_at := now + 3300 }, true)
            else
              match parseIso (expiresStr.replace "Z" "+00:00") with
              | some ts => ({ s with token_expires_at := ts - 300 }, true)
              | none =>
                  ({ s with github_error := some ("Token exchange error: Invalid isoformat string: " ++ expiresStr) },
                   false)

/-- The `available` property: a token exists and the current time is
strictly before the recorded expiry. -/
def available (s : AuthState) (now : Int) : Bool :=
  s.token.isSome && decide (now < s.token_expires_at)

/-- `GitHubAppAuth.initialize`: reset both error fields, load from Vault,
then obtain an installation token. -/
def initializeAuth (parseIso : String → Option Int) (now : Int)
    (s : AuthState) (v : VaultResult) (g : ExchangeResult) : AuthState × Bool :=
  let s := { s with vault_error := none, github_error := none }
  match loadFromVault s v with
  | (s, false) => (s, false)
  | (s, true) =>
      match getInstallationToken parseIso now s g with
      | (s, false) => (s, false)
      | (s, true) => ({ s with initialized := true }, true)

/-- The header dictionary returned by `get_headers` on success. -/
def authHeaders (s : AuthState) : List (String × String) :=
  [("Authorization", "token " ++ pyStr s.token),
   ("Accept", "application/vnd.github+json"),
   ("X-GitHub-Api-Version", "2022-11-28")]

/-- `GitHubAppAuth.get_headers`: returns the updated state, the optional
headers, and the number of `initialize` attempts performed during the call. -/
def getHeaders (parseIso : String → Option Int) (now : Int)
    (s : AuthState) (v : VaultResult) (g : ExchangeResult) :
    AuthState × Option (List (String × String)) × Nat :=
  if available s now then (s, some (authHeaders s), 0)
  else
    match initializeAuth parseIso now s v g with
    | (s, true) => (s, some (authHeaders s), 1)
    | (s, false) => (s, none, 1)

/-- JSON values, the shape of parsed GitHub API responses. -/
inductive Json where
  | null
  | str (s : String)
  | num (n : Int)
  | boolean (b : Bool)
  | arr (xs : List Json)
  | obj (fields : List (String × Json))
deriving Repr

/-- Python `j[k]` on a parsed-JSON value: `KeyError` when the key is absent,
`TypeError` when `j` is not a dict. -/
def pyIndex (j : Json) (k : String) : Except String Json :=
  match j with
  | .obj fields =>
      match fields.lookup k with
      | some v => .ok v
      | none => .error ("KeyError: " ++ k)
  | _ => .error ("TypeError: not subscriptable: " ++ k)

/-- Python `j.get(k, default)` on a parsed-JSON value: `AttributeError` when
`j` is not a dict. -/
def pyGet (j : Json) (k : String) (default : Json) : Except String Json :=
  match j with
  | .obj fields => .ok ((fields.lookup k).getD default)
  | _ => .error ("AttributeError: get: " ++ k)

/-- A JSON value expected to be a string (slicing or `split` is applied to
it in the source); anything else raises. -/
def asStr (j : Json) : Except String String :=
  match j with
  | .str s => .ok s
  | _ => .error "TypeError: expected str"

/-- A JSON value expected to be a list (it is sliced in the source);
anything else raises. -/
def asArr (j : Json) : Except String (List Json) :=
  match j with
  | .arr xs => .ok xs
  | _ => .error "TypeError: expected list"

/-- Outcome of the `requests.get` call inside `_github_get`: a raised
exception, or a response with status code and parsed JSON body. -/
inductive HttpResult where
  | exception (msg : String)
  | response (status : Nat) (body : Json)
deriving Repr

/-- A record of the outbound request `_github_get` issues. -/
structure IssuedRequest where
  url : String
  timeout : Nat
deriving Repr, DecidableEq

/-- The `GITHUB_API` constant. -/
def GITHUB_API : String := "https://api.github.com"

/-- `_github_get`: headers from the auth singleton; `None` short-circuits
with no network attempt; otherwise one GET with a 10-second timeout, JSON
on status 200, `None` otherwise. The third component records the request
issued, if any. -/
def githubGet (parseIso : String → Option Int) (now : Int)
    (s : AuthState) (v : VaultResult) (g : ExchangeResult)
    (http : HttpResult) (path : String) :
    AuthState × Option Json × Option IssuedRequest :=
  match getHeaders parseIso now s v g with
  | (s, none, _) => (s, none, none)
  | (s, some _, _) =>
      let req : IssuedRequest := { url := GITHUB_API ++ path, timeout := 10 }
      match http with
      | .response status body =>
          if status = 200 then (s, some body, some req) else (s, none, some req)
      | .exception _ => (s, none, some req)

/-- The fixed-shape record built per entry by `get_recent_commits`. Fields
the source slices (`sha`, `message`) are strings; the rest are stored as
the raw JSON values found in the entry. -/
structure CommitRec where
  sha : String
  message : String
  author : Json
  date : Json
  url : Json
deriving Repr

/-- The per-entry projection inside `get_recent_commits`:
`{"sha": c["sha"][:7], "message": c["commit"]["message"].split("\n")[0][:80],
"author": c["commit"]["author"]["name"], "date": c["commit"]["author"]["date"],
"url": c["html_url"]}`, with any missing field raising. -/
def commitOfJson (c : Json) : Except String CommitRec :=
  match pyIndex c "sha" with
  | .error e => .error e
  | .ok shaJ =>
    match asStr shaJ with
    | .error e => .error e
    | .ok sha =>
      match pyIndex c "commit" with
      | .error e => .error e
      | .ok commit =>
        match pyIndex commit "message" with
        | .error e => .error e
        | .ok msgJ =>
          match asStr msgJ with
          | .error e => .error e
          | .ok msg =>
            match pyIndex commit "author" with
            | .error e => .error e
            | .ok author =>
              match pyIndex author "name" with
              | .error e => .error e
              | .ok name =>
                match pyIndex author "date" with
                | .error e => .error e
                | .ok date =>
                  match pyIndex c "html_url" with
                  | .error e => .error e
                  | .ok url =>
                    .ok { sha := pySlice sha 7,
                          message := pySlice (pyFirstLine msg) 80,
                          author := name, date := date, url := url }

/-- `get_recent_commits` applied to the gateway result `resp`
(`_github_get`'s return value): `None` propagates as `None`; otherwise the
first `limit` entries are projected, any raised exception propagating as
`Except.error`. -/
def getRecentCommits (limit : Nat) (resp : Option Json) :
    Except String (Option (List CommitRec)) :=
  match resp with
  | none => .ok none
  | some data =>
      match asArr data with
      | .error e => .error e
      | .ok xs =>
          match (xs.take limit).mapM commitOfJson with
          | .error e => .error e
          | .ok recs => .ok (some recs)

/-- The fixed-shape record built per entry by `get_workflow_runs`. The
sliced `head_sha` is a string; the rest are raw JSON values. -/
structure RunRec where
  id : Json
  name : Json
  status : Json
  conclusion : Json
  branch : Json
  sha : String
  created_at : Json
  url : Json
deriving Repr

/-- The per-entry projection inside `get_workflow_runs`: every field is a
plain `r[...]` subscript except `conclusion`, which is
`r.get("conclusion", "in_progress")`. -/
def runOfJson (r : Json) : Except String RunRec :=
  match pyIndex r "id" with
  | .error e => .error e
  | .ok id =>
    match pyIndex r "name" with
    | .error e => .error e
    | .ok name =>
      match pyIndex r "status" with
      | .error e => .error e
      | .ok status =>
        match pyGet r "conclusion" (.str "in_progress") with
        | .error e => .error e
        | .ok conclusion =>
          match pyIndex r "head_branch" with
          | .error e => .error e
          | .ok branch =>
            match pyIndex r "head_sha" with
            | .error e => .error e
            | .ok shaJ =>
              match asStr shaJ with
              | .error e => .error e
              | .ok sha =>
                match pyIndex r "created_at" with
                | .error e => .error e
                | .ok created =>
                  match pyIndex r "html_url" with
                  | .error e => .error e
                  | .ok url =>
                    .ok { id := id, name := name, status := status,
                          conclusion := conclusion, branch := branch,
                          sha := pySlice sha 7, created_at := created, url := url }

/-- `get_workflow_runs` applied to the gateway result `resp`: `None`
propagates as `None`; otherwise `data.get("workflow_runs", [])[:limit]` is
projected entry by entry. -/
def getWorkflowRuns (limit : Nat) (resp : Option Json) :
    Except String (Option (List RunRec)) :=
  match resp with
  | none => .ok none
  | some data =>
      match pyGet data "workflow_runs" (.arr []) with
      | .error e => .error e
      | .ok runsJ =>
          match asArr runsJ with
          | .error e => .error e
          | .ok xs =>
              match (xs.take limit).mapM runOfJson with
              | .error e => .error e
              | .ok recs => .ok (some recs)

/-! Frame lemmas about the state transformers, shared by the claim proofs. -/

theorem loadFromVault_github_error (s : AuthState) (v : VaultResult) :
    (loadFromVault s v).1.github_error = s.github_error := by
  cases v with
  | secretRead d =>
      simp only [loadFromVault]
      split <;> rfl
  | hvacMissing => rfl
  | tokenUnset => rfl
  | authFailed => rfl
  | vaultErr m => rfl
  | otherErr m => rfl

theorem loadFromVault_ok_vault_error (s : AuthState) (v : VaultResult)
    (h : (loadFromVault s v).2 = true) :
    (loadFromVault s v).1.vault_error = s.vault_error := by
  cases v with
  | secretRead d =>
      simp only [loadFromVault] at h ⊢
      split at h <;> simp_all
  | hvacMissing => simp [loadFromVault] at h
  | tokenUnset => simp [loadFromVault] at h
  | authFailed => simp [loadFromVault] at h
  | vaultErr m => simp [loadFromVault] at h
  | otherErr m => simp [loadFromVault] at h

theorem getInstallationToken_vault_error (parseIso : String → Option Int) (now : Int)
    (s : AuthState) (g : ExchangeResult) :
    (getInstallationToken parseIso now s g).1.vault_error = s.vault_error := by
  cases g with
  | raised isNet m => cases isNet <;> simp [getInstallationToken]
  | httpResponse st t jr =>
      by_cases h201 : st ≠ 201
      · simp [getInstallationToken, h201]
      · cases jr with
        | error m => simp [getInstallationToken, h201]
        | ok body =>
            by_cases hes : body.expires_at.getD "" = ""
            · simp [getInstallationToken, h201, hes]
            · cases hp : parseIso ((body.expires_at.getD "").replace "Z" "+00:00") with
              | some ts => simp [getInstallationToken, h201, hes, hp]
              | none => simp [getInstallationToken, h201, hes, hp]

theorem getInstallationToken_ok_github_error (parseIso : String → Option Int) (now : Int)
    (s : AuthState) (g : ExchangeResult)
    (h : (getInstallationToken parseIso now s g).2 = true) :
    (getInstallationToken parseIso now s g).1.github_error = s.github_error := by
  cases g with
  | raised isNet m => cases isNet <;> simp [getInstallationToken] at h
  | httpResponse st t jr =>
      by_cases h201 : st ≠ 201
      · simp [getInstallationToken, h201] at h
      · cases jr with
        | error m => simp [getInstallationToken, h201] at h
        | ok body =>
            by_cases hes : body.expires_at.getD "" = ""
            · simp [getInstallationToken, h201, hes]
            · cases hp : parseIso ((body.expires_at.getD "").replace "Z" "+00:00") with
              | some ts => simp [getInstallationToken, h201, hes, hp]
              | none => simp [getInstallationToken, h201, hes, hp] at h

theorem getInstallationToken_ok_isSome (parseIso : String → Option Int) (now : Int)
    (s : AuthState) (g : ExchangeResult)
    (h : (getInstallationToken parseIso now s g).2 = true) :
    ((getInstallationToken parseIso now s g).1.token).isSome = true := by
  cases g with
  | raised isNet m => cases isNet <;> simp [getInstallationToken] at h
  | httpResponse st t jr =>
      by_cases h201 : st ≠ 201
      · simp [getInstallationToken, h201] at h
      · cases jr with
        | error m => simp [getInstallationToken, h201] at h
        | ok body =>
            by_cases hes : body.expires_at.getD "" = ""
            · simp [getInstallationToken, h201, hes]
            · cases hp : parseIso ((body.expires_at.getD "").replace "Z" "+00:00") with
              | some ts => simp [getInstallationToken, h201, hes, hp]
              | none => simp [getInstallationToken, h201, hes, hp] at h

/-- C3: `available` returns true if and only if a token value is set and the
current time is strictly less than the recorded expiry timestamp. -/
theorem available_iff_token_and_before_expiry (s : AuthState) (now : Int) :
    available s now = true ↔ (s.token ≠ none ∧ now < s.token_expires_at) := by
  simp [available, Option.isSome_iff_ne_none]

/-- Concrete instance of `available_iff_token_and_before_expiry`. -/
theorem available_iff_token_and_before_expiry_witness :
    available { token := some "t", token_expires_at := 10 } 5 = true :=
  (available_iff_token_and_before_expiry { token := some "t", token_expires_at := 10 } 5).mpr
    ⟨by decide, by decide⟩

/-- C8: the signed assertion built at time `now` has exactly the claims
iat = now - 60, exp = now + 600, iss = str(app_id), and is signed with the
stored private key using RS256. -/
theorem generateJwt_claims (now : Int) (s : AuthState) :
    generateJwt now s =
      { iat := now - 60, exp := now + 600, iss := pyStr s.app_id,
        key := s.private_key, algorithm := "RS256" } := by
  simp [generateJwt]

/-- C9: a token-exchange response with a status other than 201 fails,
records an error built from that status code and at most the first 200
characters of the response body, and stores no token from the response. -/
theorem non_201_exchange_fails (parseIso : String → Option Int) (now : Int)
    (s : AuthState) (status : Nat) (text : String) (jr : Except String TokenBody)
    (h : status ≠ 201) :
    (getInstallationToken parseIso now s (.httpResponse status text jr)).2 = false ∧
    (getInstallationToken parseIso now s (.httpResponse status text jr)).1.github_error =
      some ("GitHub token exchange failed: " ++ toString status ++ " " ++ pySlice text 200) ∧
    (pySlice text 200).length ≤ 200 ∧
    (getInstallationToken parseIso now s (.httpResponse status text jr)).1.token = s.token := by
  refine ⟨?_, ?_, pySlice_length_le text 200, ?_⟩ <;> simp [getInstallationToken, h]

/-- Concrete instance of `non_201_exchange_fails` at status 403. -/
theorem non_201_exchange_fails_witness :
    (getInstallationToken (fun _ => none) 0 {} (.httpResponse 403 "forbidden" (.error "e"))).2 = false ∧
    (getInstallationToken (fun _ => none) 0 {} (.httpResponse 403 "forbidden" (.error "e"))).1.github_error =
      some "GitHub token exchange failed: 403 forbidden" := by
  have h := non_201_exchange_fails (fun _ => none) 0 {} 403 "forbidden" (.error "e") (by decide)
  exact ⟨h.1, by rw [h.2.1]; rfl⟩

/-- C1: on a 201 token-exchange response whose parsed JSON carries a
non-empty expires_at, the recorded expiry is the parsed timestamp minus
exactly 300 seconds; when expires_at is absent or empty, it is the
issuance time plus exactly 3300 seconds. -/
theorem recorded_expiry_margin (parseIso : String → Option Int) (now ts : Int)
    (s : AuthState) (text tok : String) (es : Option String) :
    (∀ estr, es = some estr → estr ≠ "" →
        parseIso (estr.replace "Z" "+00:00") = some ts →
        (getInstallationToken parseIso now s (.httpResponse 201 text (.ok ⟨tok, es⟩))).1.token_expires_at = ts - 300 ∧
        (getInstallationToken parseIso now s (.httpResponse 201 text (.ok ⟨tok, es⟩))).2 = true) ∧
    ((es = none ∨ es = some "") →
        (getInstallationToken parseIso now s (.httpResponse 201 text (.ok ⟨tok, es⟩))).1.token_expires_at = now + 3300 ∧
        (getInstallationToken parseIso now s (.httpResponse 201 text (.ok ⟨tok, es⟩))).2 = true) := by
  constructor
  · rintro estr rfl hne hp
    constructor <;> simp [getInstallationToken, hne, hp]
  · rintro (rfl | rfl) <;> constructor <;> simp [getInstallationToken]

/-- Concrete instance of `recorded_expiry_margin` for both branches. -/
theorem recorded_expiry_margin_witness :
    (getInstallationToken (fun _ => some 1000) 50 {} (.httpResponse 201 "" (.ok ⟨"t", some "E"⟩))).1.token_expires_at = 700 ∧
    (getInstallationToken (fun _ => some 1000) 50 {} (.httpResponse 201 "" (.ok ⟨"t", none⟩))).1.token_expires_at = 3350 := by
  constructor
  · have h := (recorded_expiry_margin (fun _ => some 1000) 50 1000 {} "" "t" (some "E")).1 "E" rfl (by decide) rfl
    rw [h.1]; norm_num
  · have h := (recorded_expiry_margin (fun _ => some 1000) 50 1000 {} "" "t" none).2 (Or.inl rfl)
    rw [h.1]; norm_num

/-- C10: initialize resets both last-seen error fields before the secret
load: when the Vault step fails the token-exchange error field is None
afterwards, and after a fully successful initialize both error fields are
None. -/
theorem initializeAuth_resets_errors (parseIso : String → Option Int) (now : Int)
    (s : AuthState) (v : VaultResult) (g : ExchangeResult) :
    ((loadFromVault { s with vault_error := none, github_error := none } v).2 = false →
       (initializeAuth parseIso now s v g).1.github_error = none) ∧
    ((initializeAuth parseIso now s v g).2 = true →
       (initializeAuth parseIso now s v g).1.vault_error = none ∧
       (initializeAuth parseIso now s v g).1.github_error = none) := by
  rcases hl : loadFromVault { s with vault_error := none, github_error := none } v with ⟨s1, ok1⟩
  cases ok1 with
  | false =>
      have hge := loadFromVault_github_error { s with vault_error := none, github_error := none } v
      rw [hl] at hge
      refine ⟨fun _ => ?_, fun hc => ?_⟩
      · simp only [initializeAuth, hl]
        exact hge
      · simp only [initializeAuth, hl] at hc
        exact Bool.noConfusion hc
  | true =>
      rcases hg : getInstallationToken parseIso now s1 g with ⟨s2, ok2⟩
      cases ok2 with
      | false =>
          refine ⟨fun hf => Bool.noConfusion hf, fun hc => ?_⟩
          simp only [initializeAuth, hl, hg] at hc
          exact Bool.noConfusion hc
      | true =>
          refine ⟨fun hf => Bool.noConfusion hf, fun _ => ?_⟩
          have hv1 := loadFromVault_ok_vault_error { s with vault_error := none, github_error := none } v (by rw [hl])
          rw [hl] at hv1
          have hv2 := getInstallationToken_vault_error parseIso now s1 g
          rw [hg] at hv2
          have hg2 := getInstallationToken_ok_github_error parseIso now s1 g (by rw [hg])
          rw [hg] at hg2
          have hg1 := loadFromVault_github_error { s with vault_error := none, github_error := none } v
          rw [hl] at hg1
          constructor
          · simp only [initializeAuth, hl, hg]
            simp only [] at hv1 hv2
            rw [show ({ s2 with initialized := true } : AuthState).vault_error = s2.vault_error from rfl]
            rw [hv2, hv1]
          · simp only [initializeAuth, hl, hg]
            simp only [] at hg1 hg2
            rw [show ({ s2 with initialized := true } : AuthState).github_error = s2.github_error from rfl]
            rw [hg2, hg1]

/-- Concrete instance of `initializeAuth_resets_errors`: a Vault failure
erases a previously recorded token-exchange error. -/
theorem initializeAuth_resets_errors_witness :
    (initializeAuth (fun _ => none) 0 { github_error := some "old" } .hvacMissing
        (.raised true "x")).1.github_error = none :=
  (initializeAuth_resets_errors (fun _ => none) 0 { github_error := some "old" }
      .hvacMissing (.raised true "x")).1 rfl

/-- C4: get_headers returns cached headers without re-initialization when
the cache is available; otherwise it performs exactly one re-initialization
(secret load then token issuance) and returns headers on success, None on
failure, never propagating the underlying error. -/
theorem getHeaders_cached_or_one_reinit (parseIso : String → Option Int) (now : Int)
    (s : AuthState) (v : VaultResult) (g : ExchangeResult) :
    (available s now = true →
       getHeaders parseIso now s v g = (s, some (authHeaders s), 0)) ∧
    (available s now = false →
       getHeaders parseIso now s v g =
         ((initializeAuth parseIso now s v g).1,
          if (initializeAuth parseIso now s v g).2 then
            some (authHeaders (initializeAuth parseIso now s v g).1)
          else none,
          1)) := by
  constructor
  · intro h
    simp [getHeaders, h]
  · intro h
    rcases hi : initializeAuth parseIso now s v g with ⟨s2, ok⟩
    cases ok <;> simp [getHeaders, h, hi]

/-- Concrete instance of `getHeaders_cached_or_one_reinit` for both the
cached and the failing-reinitialization paths. -/
theorem getHeaders_cached_or_one_reinit_witness :
    getHeaders (fun _ => none) 5 { token := some "t", token_expires_at := 10 } .hvacMissing
        (.raised true "") =
      ({ token := some "t", token_expires_at := 10 },
       some (authHeaders { token := some "t", token_expires_at := 10 }), 0) ∧
    (getHeaders (fun _ => none) 5 { token := none, token_expires_at := 10 } .hvacMissing
        (.raised true "")).2 = (none, 1) := by
  constructor
  · exact (getHeaders_cached_or_one_reinit (fun _ => none) 5
        { token := some "t", token_expires_at := 10 } .hvacMissing (.raised true "")).1 rfl
  · have h := (getHeaders_cached_or_one_reinit (fun _ => none) 5
        { token := none, token_expires_at := 10 } .hvacMissing (.raised true "")).2 rfl
    rw [h]
    rfl

/-- C2 as stated is false: a payload carrying app_id but missing the other
fields makes the load fail with the incomplete-secret error, yet the
credential field app_id retains the payload's value. -/
theorem partial_secret_leaves_fields_cex :
    (loadFromVault {} (.secretRead ⟨some "123", none, none⟩)).2 = false ∧
    (loadFromVault {} (.secretRead ⟨some "123", none, none⟩)).1.vault_error =
      some "Missing fields in Vault secret (need app_id, private_key, installation_id)" ∧
    (loadFromVault {} (.secretRead ⟨some "123", none, none⟩)).1.app_id = some "123" :=
  ⟨rfl, rfl, rfl⟩

/-- C2 (amended): when any required field is missing or empty the load
fails with the incomplete-secret error, but only after the credential
fields have been overwritten with the raw payload values, so they can
retain a partial subset of the payload. -/
theorem incomplete_secret_error_and_raw_fields (s : AuthState) (d : SecretData)
    (h : pyTruthy d.app_id = false ∨ pyTruthy d.private_key = false ∨
         pyTruthy d.installation_id = false) :
    (loadFromVault s (.secretRead d)).2 = false ∧
    (loadFromVault s (.secretRead d)).1.vault_error =
      some "Missing fields in Vault secret (need app_id, private_key, installation_id)" ∧
    (loadFromVault s (.secretRead d)).1.app_id = d.app_id ∧
    (loadFromVault s (.secretRead d)).1.private_key = d.private_key ∧
    (loadFromVault s (.secretRead d)).1.installation_id = d.installation_id := by
  have hc : (pyTruthy d.app_id && pyTruthy d.private_key && pyTruthy d.installation_id) = false := by
    rcases h with h | h | h <;> simp [h]
  refine ⟨?_, ?_, ?_, ?_, ?_⟩ <;> simp [loadFromVault, hc]

/-- Concrete instance of `incomplete_secret_error_and_raw_fields` with an
empty private key. -/
theorem incomplete_secret_error_and_raw_fields_witness :
    (loadFromVault {} (.secretRead ⟨some "x", some "", some "y"⟩)).2 = false ∧
    (loadFromVault {} (.secretRead ⟨some "x", some "", some "y"⟩)).1.private_key = some "" := by
  have h := incomplete_secret_error_and_raw_fields {} ⟨some "x", some "", some "y"⟩
    (Or.inr (Or.inl (by decide)))
  exact ⟨h.1, h.2.2.2.1⟩

/-- C5 as stated is false: a token exchange that succeeds (returns true)
with a server-supplied expires_at already in the past leaves the cache
unavailable immediately afterwards. -/
theorem successful_issuance_not_available_cex :
    (getInstallationToken (fun _ => some 300) 100 {}
        (.httpResponse 201 "" (.ok ⟨"t", some "E"⟩))).2 = true ∧
    available (getInstallationToken (fun _ => some 300) 100 {}
        (.httpResponse 201 "" (.ok ⟨"t", some "E"⟩))).1 100 = false :=
  ⟨rfl, rfl⟩

/-- C5 (amended): a successful issuance is immediately available exactly
when the recorded expiry is still in the future, which always holds in the
fallback path with no expires_at; once the recorded expiry has passed,
available is false and the next get_headers call performs exactly one
re-initialization attempt. -/
theorem issuance_availability_round_trip (parseIso : String → Option Int) (now : Int)
    (s : AuthState) (v : VaultResult) (g : ExchangeResult) (text tok : String) :
    ((getInstallationToken parseIso now s (.httpResponse 201 text (.ok ⟨tok, none⟩))).2 = true ∧
     available (getInstallationToken parseIso now s (.httpResponse 201 text (.ok ⟨tok, none⟩))).1 now = true) ∧
    ((getInstallationToken parseIso now s g).2 = true →
       available (getInstallationToken parseIso now s g).1 now =
         decide (now < (getInstallationToken parseIso now s g).1.token_expires_at)) ∧
    (s.token_expires_at ≤ now → available s now = false) ∧
    (available s now = false → (getHeaders parseIso now s v g).2.2 = 1) := by
  refine ⟨⟨?_, ?_⟩, ?_, ?_, ?_⟩
  · simp [getInstallationToken]
  · simp [getInstallationToken, available]
  · intro h
    simp [available, getInstallationToken_ok_isSome parseIso now s g h]
  · intro h
    have hd : decide (now < s.token_expires_at) = false := by simp; omega
    simp [available, hd]
  · intro h
    rcases hi : initializeAuth parseIso now s v g with ⟨s2, ok⟩
    cases ok <;> simp [getHeaders, h, hi]

/-- Concrete instance of `issuance_availability_round_trip`. -/
theorem issuance_availability_round_trip_witness :
    available (getInstallationToken (fun _ => none) 0 {}
        (.httpResponse 201 "" (.ok ⟨"t", none⟩))).1 0 = true ∧
    available { token := some "t", token_expires_at := 5 } 7 = false ∧
    (getHeaders (fun _ => none) 7 { token := some "t", token_expires_at := 5 } .hvacMissing
        (.raised true "")).2.2 = 1 := by
  have h1 := issuance_availability_round_trip (fun _ => none) 0 ({} : AuthState)
    .hvacMissing (.raised true "") "" "t"
  have h2 := issuance_availability_round_trip (fun _ => none) 7
    { token := some "t", token_expires_at := 5 } .hvacMissing (.raised true "") "" "t"
  exact ⟨h1.1.2, h2.2.2.1 (by decide), h2.2.2.2 (h2.2.2.1 (by decide))⟩

/-- C7: _github_get returns None with no network attempt when the header
helper yields None; otherwise it issues one GET with a 10-second timeout,
returning the parsed JSON exactly when the status is 200 and None for any
other status or raised exception. -/
theorem githubGet_gateway_contract (parseIso : String → Option Int) (now : Int)
    (s : AuthState) (v : VaultResult) (g : ExchangeResult) (path : String) :
    ((getHeaders parseIso now s v g).2.1 = none →
       ∀ http, (githubGet parseIso now s v g http path).2 = (none, none)) ∧
    ((getHeaders parseIso now s v g).2.1 ≠ none →
       (∀ http, (githubGet parseIso now s v g http path).2.2 =
          some { url := GITHUB_API ++ path, timeout := 10 }) ∧
       (∀ body, (githubGet parseIso now s v g (.response 200 body) path).2.1 = some body) ∧
       (∀ st body, st ≠ 200 →
          (githubGet parseIso now s v g (.response st body) path).2.1 = none) ∧
       (∀ msg, (githubGet parseIso now s v g (.exception msg) path).2.1 = none)) := by
  rcases hH : getHeaders parseIso now s v g with ⟨s1, oh, n⟩
  cases oh with
  | none =>
      refine ⟨fun _ http => ?_, fun hne => absurd rfl hne⟩
      simp [githubGet, hH]
  | some hs =>
      refine ⟨fun hc => Option.noConfusion hc, fun _ => ⟨fun http => ?_, fun body => ?_, fun st body hst => ?_, fun msg => ?_⟩⟩
      · cases http with
        | response st body => simp only [githubGet, hH]; split <;> rfl
        | exception m => simp [githubGet, hH]
      · simp [githubGet, hH]
      · simp [githubGet, hH, hst]
      · simp [githubGet, hH]

/-- Concrete instance of `githubGet_gateway_contract` for the no-headers
path and both response branches. -/
theorem githubGet_gateway_contract_witness :
    (githubGet (fun _ => none) 0 {} .hvacMissing (.raised true "") (.response 200 .null) "/x").2 =
      (none, none) ∧
    (githubGet (fun _ => none) 5 { token := some "t", token_expires_at := 10 } .hvacMissing
        (.raised true "") (.response 200 (.str "ok")) "/x").2.1 = some (.str "ok") ∧
    (githubGet (fun _ => none) 5 { token := some "t", token_expires_at := 10 } .hvacMissing
        (.raised true "") (.response 404 (.str "no")) "/x").2.1 = none := by
  have h1 := githubGet_gateway_contract (fun _ => none) 0 ({} : AuthState) .hvacMissing
    (.raised true "") "/x"
  have h2 := githubGet_gateway_contract (fun _ => none) 5
    { token := some "t", token_expires_at := 10 } .hvacMissing (.raised true "") "/x"
  exact ⟨h1.1 rfl (.response 200 .null),
         (h2.2 (by decide)).2.1 (.str "ok"),
         (h2.2 (by decide)).2.2.1 404 (.str "no") (by decide)⟩

/-- C6 as stated is false: a commit entry missing the sha field, or a
workflow-run entry missing the id field, makes the projection raise an
uncaught KeyError instead of tolerating the absence. -/
theorem projection_missing_field_raises_cex :
    getRecentCommits 5 (some (.arr [.obj []])) = .error "KeyError: sha" ∧
    getWorkflowRuns 5 (some (.obj [("workflow_runs", .arr [.obj []])])) =
      .error "KeyError: id" :=
  ⟨rfl, rfl⟩

/-- C6 (amended): a None gateway result propagates as None without raising,
projected records truncate the commit message to 80 characters and SHAs to
7 characters, and an absent workflow conclusion defaults to in_progress;
but absence of any other accessed field raises an uncaught KeyError. -/
theorem projection_truncates_and_tolerates (limit : Nat) (c r : Json)
    (crec : CommitRec) (rrec : RunRec) :
    (getRecentCommits limit none = .ok none) ∧
    (getWorkflowRuns limit none = .ok none) ∧
    (commitOfJson c = .ok crec → crec.sha.length ≤ 7 ∧ crec.message.length ≤ 80) ∧
    (runOfJson r = .ok rrec → rrec.sha.length ≤ 7) ∧
    (runOfJson (.obj [("id", .num 1), ("name", .str "ci"), ("status", .str "completed"),
        ("head_branch", .str "main"), ("head_sha", .str "abcdef012345"),
        ("created_at", .str "2024"), ("html_url", .str "u")]) =
      .ok { id := .num 1, name := .str "ci", status := .str "completed",
            conclusion := .str "in_progress", branch := .str "main",
            sha := "abcdef0", created_at := .str "2024", url := .str "u" }) := by
  refine ⟨rfl, rfl, ?_, ?_, rfl⟩
  · intro h
    unfold commitOfJson at h
    repeat' split at h
    all_goals try exact Except.noConfusion h
    injection h with h
    subst h
    exact ⟨pySlice_length_le _ _, pySlice_length_le _ _⟩
  · intro h
    unfold runOfJson at h
    repeat' split at h
    all_goals try exact Except.noConfusion h
    injection h with h
    subst h
    exact pySlice_length_le _ _

/-- Concrete instance of `projection_truncates_and_tolerates`. -/
theorem projection_truncates_and_tolerates_witness :
    String.length "0123456" ≤ 7 ∧ String.length "msg" ≤ 80 := by
  have h := (projection_truncates_and_tolerates 5
    (.obj [("sha", .str "0123456789"),
           ("commit", .obj [("message", .str "msg"),
                            ("author", .obj [("name", .str "a"), ("date", .str "d")])]),
           ("html_url", .str "u")])
    (.obj [])
    { sha := "0123456", message := "msg", author := .str "a", date := .str "d", url := .str "u" }
    { id := .null, name := .null, status := .null, conclusion := .null, branch := .null,
      sha := "", created_at := .null, url := .null }).2.2.1 (by rfl)
  exact h
